import Mathlib

/-!
Verification of the live streaming session client
(src/env/lib/python3.12/site-packages/google/genai/live.py).

The development shallowly embeds the message-normalization pipeline
(AsyncSession._parse_client_message), the receive loop (AsyncSession.receive),
the stream coordinator (AsyncSession.start_stream), the server-frame decoders
(_LiveServerMessage_from_mldev / _from_vertex) and the setup-handshake builders
(AsyncLive._LiveSetup_to_mldev / _to_vertex).

Conventions:
- Python runtime values are modelled by the inductive type PyVal; dicts are
  association lists with unique keys and lookups take the first match.
- dialect A (the API-key backend, mldev) corresponds to vertexai = false;
  dialect B (the platform backend, vertex) corresponds to vertexai = true.
- raised Python exceptions are modelled by the PyExc type; a function that can
  raise returns Except PyExc.
- pydantic model classes from types.py and the helpers of _transformers.py and
  models.py are not among the sources; definitions marked with a
  Modelled-from-the-spec comment reconstruct them from the specification text.
-/

/-- A Python runtime value, restricted to the shapes the live client inspects:
None, bool, str, bytes, int, list, dict, a types.Blob instance, a
types.FunctionResponse instance, and a stand-in for any other object. -/
inductive PyVal where
  | pyNone
  | pyBool (b : Bool)
  | pyStr (s : String)
  | pyBytes (bs : List Nat)
  | pyInt (n : Int)
  | pyList (xs : List PyVal)
  | pyDict (kvs : List (String × PyVal))
  | pyBlobObj (dat : Option (List Nat)) (mime : Option String)
  | pyFR (nm : Option String) (resp : Option PyVal) (ident : Option String)
  | pyOther

/-- Dictionary lookup: first binding of the key, as Python dict access. -/
def lookupKey (kvs : List (String × PyVal)) (k : String) : Option PyVal :=
  (kvs.find? (fun p => p.fst == k)).map (fun p => p.snd)

/-- Membership test for a dict key, as the Python expression k in d. -/
def hasKey (kvs : List (String × PyVal)) (k : String) : Bool :=
  kvs.any (fun p => p.fst == k)

/-- UTF-8 encoding of a string as a byte list (Python str.encode). -/
def utf8Bytes (s : String) : List Nat :=
  s.data.foldr (fun c acc => (String.utf8EncodeChar c).map (fun b => b.toNat) ++ acc) []

/-- The standard base64 alphabet. -/
def b64Alphabet : List Char :=
  "ABCDEFGHIJKLMNOPQRSTUVWXYZabcdefghijklmnopqrstuvwxyz0123456789+/".toList

/-- Character for a 6-bit group. -/
def b64Char (n : Nat) : Char := b64Alphabet.getD n '='

/-- Base64 encoding of a byte list, three bytes at a time with padding
(Python base64.b64encode, used by pydantic json-mode serialization of bytes). -/
def b64EncodeChunks : List Nat → List Char
  | [] => []
  | [a] =>
    let x := (a % 256) * 65536
    [b64Char (x / 262144), b64Char ((x / 4096) % 64), '=', '=']
  | [a, b] =>
    let x := (a % 256) * 65536 + (b % 256) * 256
    [b64Char (x / 262144), b64Char ((x / 4096) % 64), b64Char ((x / 64) % 64), '=']
  | a :: b :: c :: rest =>
    let x := (a % 256) * 65536 + (b % 256) * 256 + (c % 256)
    b64Char (x / 262144) :: b64Char ((x / 4096) % 64) :: b64Char ((x / 64) % 64) ::
      b64Char (x % 64) :: b64EncodeChunks rest

/-- Base64 encoding of a byte list as a string. -/
def b64EncodeBytes (bs : List Nat) : String := String.mk (b64EncodeChunks bs)

/-- Index of a base64 character in the alphabet. -/
def b64CharIdx (c : Char) : Nat := b64Alphabet.indexOf c

/-- Base64 decoding, four characters at a time (Python base64.b64decode). -/
def b64DecodeChars : List Char → List Nat
  | a :: b :: c :: d :: rest =>
    let x := b64CharIdx a * 262144 + b64CharIdx b * 4096 +
      (if c = '=' then 0 else b64CharIdx c * 64) + (if d = '=' then 0 else b64CharIdx d)
    let out := if c = '=' then [x / 65536]
      else if d = '=' then [x / 65536, (x / 256) % 256]
      else [x / 65536, (x / 256) % 256, x % 256]
    out ++ b64DecodeChars rest
  | _ => []

/-- A validated types.Blob: optional byte payload and optional MIME type. -/
structure BlobS where
  dat : Option (List Nat)
  mime_type : Option String

/-- A validated types.FunctionResponse: optional name, optional response dict
(carried as a PyVal), optional id. -/
structure FRFields where
  nm : Option String
  resp : Option PyVal
  ident : Option String

/-- Modelled from the spec: pydantic validation of a blob record
(types.Blob is outside the sources; spec section 3 gives the Part variant
as a binary blob with MIME type, and section 7 classifies malformed blob
records as validation errors). Unknown keys and wrongly typed fields are
rejected; a str data payload is coerced to its UTF-8 bytes as pydantic does. -/
def mkBlob (kvs : List (String × PyVal)) : Option BlobS :=
  if kvs.all (fun p => p.fst == "data" || p.fst == "mime_type") then
    let dat? : Option (Option (List Nat)) :=
      match lookupKey kvs "data" with
      | Option.none => some Option.none
      | some PyVal.pyNone => some Option.none
      | some (PyVal.pyBytes bs) => some (some bs)
      | some (PyVal.pyStr s) => some (some (utf8Bytes s))
      | some _ => Option.none
    let mt? : Option (Option String) :=
      match lookupKey kvs "mime_type" with
      | Option.none => some Option.none
      | some PyVal.pyNone => some Option.none
      | some (PyVal.pyStr s) => some (some s)
      | some _ => Option.none
    match dat?, mt? with
    | some d, some m => some ⟨d, m⟩
    | _, _ => Option.none
  else Option.none

/-- Modelled from the spec: pydantic validation of a tool-response record
(types.FunctionResponse is outside the sources; spec section 3 gives it as
a name, a response payload and an optional id). Unknown keys and wrongly
typed fields are rejected. -/
def mkFunctionResponse (kvs : List (String × PyVal)) : Option FRFields :=
  if kvs.all (fun p => p.fst == "name" || p.fst == "response" || p.fst == "id") then
    let nm? : Option (Option String) :=
      match lookupKey kvs "name" with
      | Option.none => some Option.none
      | some PyVal.pyNone => some Option.none
      | some (PyVal.pyStr s) => some (some s)
      | some _ => Option.none
    let resp? : Option (Option PyVal) :=
      match lookupKey kvs "response" with
      | Option.none => some Option.none
      | some PyVal.pyNone => some Option.none
      | some (PyVal.pyDict d) => some (some (PyVal.pyDict d))
      | some _ => Option.none
    let id? : Option (Option String) :=
      match lookupKey kvs "id" with
      | Option.none => some Option.none
      | some PyVal.pyNone => some Option.none
      | some (PyVal.pyStr s) => some (some s)
      | some _ => Option.none
    match nm?, resp?, id? with
    | some a, some b, some c => some ⟨a, b, c⟩
    | _, _, _ => Option.none
  else Option.none

/-- A value acceptable as a media chunk inside a realtime-input record:
either a blob dict or a types.Blob instance (pydantic accepts both). -/
def mkBlobLike : PyVal → Option BlobS
  | PyVal.pyDict kvs => mkBlob kvs
  | PyVal.pyBlobObj d m => some ⟨d, m⟩
  | _ => Option.none

/-- Modelled from the spec: pydantic validation of the realtime-input record
(types.LiveClientRealtimeInput is outside the sources; spec section 6 gives
its wire shape as a media_chunks list of blobs). -/
def mkRealtimeInput (kvs : List (String × PyVal)) : Option (Option (List BlobS)) :=
  if kvs.all (fun p => p.fst == "media_chunks") then
    match lookupKey kvs "media_chunks" with
    | Option.none => some Option.none
    | some PyVal.pyNone => some Option.none
    | some (PyVal.pyList xs) => (xs.mapM mkBlobLike).map some
    | some _ => Option.none
  else Option.none

/-- A value acceptable as an element of a function_responses list: a dict
validated as a FunctionResponse or a types.FunctionResponse instance. -/
def mkFRLike : PyVal → Option FRFields
  | PyVal.pyDict kvs => mkFunctionResponse kvs
  | PyVal.pyFR nm resp ident => some ⟨nm, resp, ident⟩
  | _ => Option.none

/-- Modelled from the spec: pydantic validation of the tool-response record
(types.LiveClientToolResponse is outside the sources; spec section 6 gives
its wire shape as a function_responses list). -/
def mkToolResponse (kvs : List (String × PyVal)) : Option (Option (List FRFields)) :=
  if kvs.all (fun p => p.fst == "function_responses") then
    match lookupKey kvs "function_responses" with
    | Option.none => some Option.none
    | some PyVal.pyNone => some Option.none
    | some (PyVal.pyList xs) => (xs.mapM mkFRLike).map some
    | some _ => Option.none
  else Option.none

/-- json-mode exclude_none model_dump of a validated Blob: the byte payload is
serialized as a base64 string, absent fields are dropped. -/
def dumpBlobDict (b : BlobS) : List (String × PyVal) :=
  (match b.dat with
   | some bs => [("data", PyVal.pyStr (b64EncodeBytes bs))]
   | Option.none => []) ++
  (match b.mime_type with
   | some s => [("mime_type", PyVal.pyStr s)]
   | Option.none => [])

/-- json-mode exclude_none model_dump of a validated FunctionResponse. -/
def dumpFRFields (f : FRFields) : PyVal :=
  PyVal.pyDict
    ((match f.nm with
      | some s => [("name", PyVal.pyStr s)]
      | Option.none => []) ++
     (match f.resp with
      | some v => [("response", v)]
      | Option.none => []) ++
     (match f.ident with
      | some s => [("id", PyVal.pyStr s)]
      | Option.none => []))

/-- Value of an optional string after a dict .get: the string or None. -/
def optStrVal : Option String → PyVal
  | some s => PyVal.pyStr s
  | Option.none => PyVal.pyNone

/-- Value of an optional payload after a dict .get: the payload or None. -/
def optVal : Option PyVal → PyVal
  | some v => v
  | Option.none => PyVal.pyNone

/-- Value of the optional end_of_turn flag placed into a typed dict. -/
def pyOfOptBool : Option Bool → PyVal
  | some b => PyVal.pyBool b
  | Option.none => PyVal.pyNone

/-- The FunctionResponseDict built at lines 433-441 and 628-637 of live.py:
name and response are always present (possibly None, via .get on the
exclude_none dump); id is added only when its dumped value is truthy,
so an absent or empty id never appears. -/
def frTypedDict (nm : Option String) (resp : Option PyVal) (ident : Option String) : PyVal :=
  let base := [("name", optStrVal nm), ("response", optVal resp)]
  match ident with
  | some s => if s.isEmpty then PyVal.pyDict base else PyVal.pyDict (base ++ [("id", PyVal.pyStr s)])
  | Option.none => PyVal.pyDict base

/-- The caller-supplied input of AsyncSession.send or _parse_client_message:
a plain Python value (None, str, bytes, dict, list, Blob or FunctionResponse
instance, anything else), or one of the typed canonical client messages. -/
inductive ClientInput where
  | pyIn (v : PyVal)
  | realtimeIn (media_chunks : Option (List BlobS))
  | contentIn (turns : Option (List PyVal)) (turn_complete : Option Bool)
  | toolRespIn (frs : Option (List FRFields))

/-- Python truthiness of the input, deciding the not-input branch at line 382:
None, empty strings, empty byte strings, zero, empty lists and empty dicts are
falsy; pydantic model instances are always truthy. -/
def isFalsyInput : ClientInput → Bool
  | ClientInput.pyIn PyVal.pyNone => true
  | ClientInput.pyIn (PyVal.pyBool b) => !b
  | ClientInput.pyIn (PyVal.pyStr s) => s.isEmpty
  | ClientInput.pyIn (PyVal.pyBytes bs) => bs.isEmpty
  | ClientInput.pyIn (PyVal.pyInt n) => n == 0
  | ClientInput.pyIn (PyVal.pyList xs) => xs.isEmpty
  | ClientInput.pyIn (PyVal.pyDict kvs) => kvs.isEmpty
  | _ => false

/-- The exceptions _parse_client_message can raise: the two ValueError
messages it constructs, and the unguarded container accesses (list index,
missing dict key, missing attribute) that escape as other exception types. -/
inductive PyExc where
  | valueErrUnsupported
  | valueErrRequiresId
  | indexErr
  | keyErr
  | attrErr

/-- The LiveClientMessageDict returned by _parse_client_message: exactly one
of client_content, realtime_input, tool_response is populated. Field values
keep the shape the code builds (possibly raw caller payloads). -/
inductive LiveClientMessageDict where
  | clientContent (turns : Option PyVal) (turn_complete : Option PyVal)
  | realtimeInput (media_chunks : PyVal)
  | toolResponse (function_responses : PyVal)

/-- The formatted_input variable after the initial rewriting block
(lines 380-407): either a plain value or one of the typed messages. -/
inductive Formatted where
  | fv (v : PyVal)
  | fRealtime (media_chunks : Option (List BlobS))
  | fContent (turns : Option (List PyVal)) (turn_complete : Option Bool)
  | fToolResp (frs : Option (List FRFields))

/-- The initial rewriting of the input (lines 385-407): a string is wrapped
in a list; a dict carrying data is validated as a Blob and, when its payload
is bytes, replaced by the singleton list of its json dump; a Blob instance is
wrapped in a list; a dict carrying name and response must carry id on
dialect A and is wrapped in a list; anything else passes through. -/
def preprocessInput (vertexai : Bool) : ClientInput → Except PyExc Formatted
  | ClientInput.pyIn (PyVal.pyStr s) => Except.ok (Formatted.fv (PyVal.pyList [PyVal.pyStr s]))
  | ClientInput.pyIn (PyVal.pyDict kvs) =>
    if hasKey kvs "data" then
      match mkBlob kvs with
      | Option.none => Except.error PyExc.valueErrUnsupported
      | some b =>
        match b.dat with
        | some _ => Except.ok (Formatted.fv (PyVal.pyList [PyVal.pyDict (dumpBlobDict b)]))
        | Option.none => Except.ok (Formatted.fv (PyVal.pyDict kvs))
    else if hasKey kvs "name" && hasKey kvs "response" then
      if !vertexai && !(hasKey kvs "id") then Except.error PyExc.valueErrRequiresId
      else Except.ok (Formatted.fv (PyVal.pyList [PyVal.pyDict kvs]))
    else Except.ok (Formatted.fv (PyVal.pyDict kvs))
  | ClientInput.pyIn (PyVal.pyBlobObj d m) =>
    Except.ok (Formatted.fv (PyVal.pyList [PyVal.pyBlobObj d m]))
  | ClientInput.pyIn v => Except.ok (Formatted.fv v)
  | ClientInput.realtimeIn mc => Except.ok (Formatted.fRealtime mc)
  | ClientInput.contentIn t tc => Except.ok (Formatted.fContent t tc)
  | ClientInput.toolRespIn frs => Except.ok (Formatted.fToolResp frs)

/-- Python isinstance(x, Sequence): lists, byte strings and strings are
sequences and expose their elements; dicts and model instances are not. -/
def seqElems : PyVal → Option (List PyVal)
  | PyVal.pyList xs => some xs
  | PyVal.pyBytes bs => some (bs.map (fun b => PyVal.pyInt (Int.ofNat b)))
  | PyVal.pyStr s => some (s.data.map (fun c => PyVal.pyStr (String.mk [c])))
  | _ => Option.none

/-- The tool-response shape test of line 410: a dict carrying both name and
response. -/
def isToolResponseShaped : PyVal → Bool
  | PyVal.pyDict kvs => hasKey kvs "name" && hasKey kvs "response"
  | _ => false

/-- Element test isinstance(c, str). -/
def isStrVal : PyVal → Bool
  | PyVal.pyStr _ => true
  | _ => false

/-- Element test isinstance(b, dict) and data in b. -/
def isDictWithData : PyVal → Bool
  | PyVal.pyDict kvs => hasKey kvs "data"
  | _ => false

/-- Element test isinstance(b, types.Blob). -/
def isBlobVal : PyVal → Bool
  | PyVal.pyBlobObj _ _ => true
  | _ => false

/-- Element test isinstance(item, dict). -/
def isDictVal : PyVal → Bool
  | PyVal.pyDict _ => true
  | _ => false

/-- model_dump on a list element (lines 493-496): only pydantic model
instances expose it; plain values raise AttributeError. -/
def modelDumpVal : PyVal → Option PyVal
  | PyVal.pyBlobObj d m => some (PyVal.pyDict (dumpBlobDict (BlobS.mk d m)))
  | PyVal.pyFR nm resp ident => some (dumpFRFields (FRFields.mk nm resp ident))
  | _ => Option.none

/-- The loop of lines 414-441: every dict element is validated as a
FunctionResponse; on dialect A an element whose id is None aborts the whole
batch; non-dict elements are skipped silently. -/
def processFRItems (vertexai : Bool) : List PyVal → Except PyExc (List PyVal)
  | [] => Except.ok []
  | PyVal.pyDict kvs :: rest =>
    match mkFunctionResponse kvs with
    | Option.none => Except.error PyExc.valueErrUnsupported
    | some f =>
      if f.ident.isNone && !vertexai then Except.error PyExc.valueErrRequiresId
      else (processFRItems vertexai rest).map (fun l => frTypedDict f.nm f.resp f.ident :: l)
  | _ :: rest => processFRItems vertexai rest

/-- Modelled from the spec: the content pipeline of lines 450-482 for string
parts (t_contents of _transformers.py and _Content_to_mldev of models.py are
outside the sources; spec sections 3 and 4.1 say a string becomes a one-Part
text Turn with the user role, and consecutive parts are grouped into one
turn). Dialect A conversion. -/
def Contents_to_mldev (parts : List String) : PyVal :=
  PyVal.pyList [PyVal.pyDict
    [("parts", PyVal.pyList (parts.map (fun s => PyVal.pyDict [("text", PyVal.pyStr s)]))),
     ("role", PyVal.pyStr "user")]]

/-- Modelled from the spec: as Contents_to_mldev for dialect B
(_Content_to_vertex of models.py is outside the sources; the translation is
structural and produces the same turn shape). -/
def Contents_to_vertex (parts : List String) : PyVal :=
  PyVal.pyList [PyVal.pyDict
    [("parts", PyVal.pyList (parts.map (fun s => PyVal.pyDict [("text", PyVal.pyStr s)]))),
     ("role", PyVal.pyStr "user")]]

/-- The string parts retained by the loop of lines 452-454: only PartUnion
instances are kept; in the modelled input space these are the strings. -/
def strParts (elems : List PyVal) : List String :=
  elems.filterMap (fun v =>
    match v with
    | PyVal.pyStr s => some s
    | _ => Option.none)

/-- The bytes-rebuild block of lines 571-595: each chunk dict is re-validated
as a Blob, chunks whose payload is bytes are re-emitted with the payload
base64-decoded, other chunks are dropped. In this model the json dump always
serializes bytes as a base64 string, so the guard of line 568 never selects
this block; it is kept for fidelity. -/
def rebuildChunks : List PyVal → Except PyExc (List PyVal)
  | [] => Except.ok []
  | PyVal.pyDict kvs :: rest =>
    match mkBlob kvs with
    | Option.none => Except.error PyExc.valueErrUnsupported
    | some bb =>
      match bb.dat with
      | some ds =>
        (rebuildChunks rest).map (fun l =>
          PyVal.pyDict
            [("data", PyVal.pyBytes (b64DecodeChars (ds.map Char.ofNat))),
             ("mime_type", optStrVal bb.mime_type)] :: l)
      | Option.none => rebuildChunks rest
  | _ :: rest => rebuildChunks rest

/-- Bytes test on a dumped chunk payload (line 568). -/
def isBytesVal : PyVal → Bool
  | PyVal.pyBytes _ => true
  | _ => false

/-- The dict dispatch of lines 508-554: content or turns keys build a
client_content message from the raw payload; media_chunks validates a
realtime input (an exclude_none dump of a None list raises KeyError when
indexed); function_responses validates a tool response with no id check;
anything else is an unsupported shape. -/
def dispatchDict (kvs : List (String × PyVal)) : Except PyExc LiveClientMessageDict :=
  if hasKey kvs "content" || hasKey kvs "turns" then
    let turnsVal :=
      match lookupKey kvs "turns" with
      | some v => v
      | Option.none =>
        match lookupKey kvs "content" with
        | some v => v
        | Option.none => PyVal.pyNone
    Except.ok (LiveClientMessageDict.clientContent (some turnsVal)
      (some (optVal (lookupKey kvs "turn_complete"))))
  else if hasKey kvs "media_chunks" then
    match mkRealtimeInput kvs with
    | Option.none => Except.error PyExc.valueErrUnsupported
    | some Option.none => Except.error PyExc.keyErr
    | some (some chunks) =>
      Except.ok (LiveClientMessageDict.realtimeInput
        (PyVal.pyList (chunks.map (fun b => PyVal.pyDict (dumpBlobDict b)))))
  else if hasKey kvs "function_responses" then
    match mkToolResponse kvs with
    | Option.none => Except.error PyExc.valueErrUnsupported
    | some Option.none => Except.error PyExc.keyErr
    | some (some frs) =>
      Except.ok (LiveClientMessageDict.toolResponse (PyVal.pyList (frs.map dumpFRFields)))
  else Except.error PyExc.valueErrUnsupported

/-- The main dispatch of lines 409-663 on the formatted input. -/
def dispatchFormatted (vertexai : Bool) (fi : Formatted) (end_of_turn : Option Bool) :
    Except PyExc LiveClientMessageDict :=
  match fi with
  | Formatted.fv v =>
    match seqElems v with
    | some elems =>
      if elems.any isToolResponseShaped then
        (processFRItems vertexai elems).map
          (fun l => LiveClientMessageDict.toolResponse (PyVal.pyList l))
      else if elems.any isStrVal then
        Except.ok (LiveClientMessageDict.clientContent
          (some (if vertexai then Contents_to_vertex (strParts elems)
                 else Contents_to_mldev (strParts elems)))
          (some (pyOfOptBool end_of_turn)))
      else if elems.any isDictWithData then
        Except.ok (LiveClientMessageDict.realtimeInput (PyVal.pyList elems))
      else if elems.any isBlobVal then
        match elems.mapM modelDumpVal with
        | some dumped => Except.ok (LiveClientMessageDict.realtimeInput (PyVal.pyList dumped))
        | Option.none => Except.error PyExc.attrErr
      else Except.error PyExc.valueErrUnsupported
    | Option.none =>
      match v with
      | PyVal.pyDict kvs => dispatchDict kvs
      | PyVal.pyFR nm resp ident =>
        if !vertexai && (ident.getD "").isEmpty then Except.error PyExc.valueErrRequiresId
        else Except.ok (LiveClientMessageDict.toolResponse (PyVal.pyList [frTypedDict nm resp ident]))
      | _ => Except.error PyExc.valueErrUnsupported
  | Formatted.fRealtime mc =>
    match mc with
    | Option.none => Except.ok (LiveClientMessageDict.realtimeInput PyVal.pyNone)
    | some [] => Except.error PyExc.indexErr
    | some (b :: rest) =>
      let dumps := (b :: rest).map (fun bb => PyVal.pyDict (dumpBlobDict bb))
      match lookupKey (dumpBlobDict b) "data" with
      | Option.none => Except.error PyExc.keyErr
      | some v =>
        if isBytesVal v then
          (rebuildChunks dumps).map (fun l => LiveClientMessageDict.realtimeInput (PyVal.pyList l))
        else Except.ok (LiveClientMessageDict.realtimeInput (PyVal.pyList dumps))
  | Formatted.fContent turns tc =>
    let turnsDump :=
      match turns with
      | some l => PyVal.pyList l
      | Option.none => PyVal.pyNone
    Except.ok (LiveClientMessageDict.clientContent (some turnsDump) (some (pyOfOptBool tc)))
  | Formatted.fToolResp frs =>
    match vertexai, frs with
    | false, some [] => Except.error PyExc.indexErr
    | false, some (f :: rest) =>
      if (f.ident.getD "").isEmpty then Except.error PyExc.valueErrRequiresId
      else Except.ok (LiveClientMessageDict.toolResponse
        (PyVal.pyList ((f :: rest).map dumpFRFields)))
    | _, _ =>
      Except.ok (LiveClientMessageDict.toolResponse
        (match frs with
         | some l => PyVal.pyList (l.map dumpFRFields)
         | Option.none => PyVal.pyNone))

/-- AsyncSession._parse_client_message (lines 364-665): falsy input is an
explicit end-of-turn signal; otherwise the input is rewritten and dispatched. -/
def parse_client_message (vertexai : Bool) (input : ClientInput) (end_of_turn : Option Bool) :
    Except PyExc LiveClientMessageDict :=
  if isFalsyInput input then
    Except.ok (LiveClientMessageDict.clientContent Option.none (some (PyVal.pyBool true)))
  else
    match preprocessInput vertexai input with
    | Except.error e => Except.error e
    | Except.ok fi => dispatchFormatted vertexai fi end_of_turn

/-- AsyncSession.send (lines 77-113): parse first, then write exactly one
frame. The second component lists the frames written to the socket; a parse
failure writes none. -/
def sendFrames (vertexai : Bool) (input : ClientInput) (end_of_turn : Option Bool) :
    Except PyExc LiveClientMessageDict × List LiveClientMessageDict :=
  match parse_client_message vertexai input end_of_turn with
  | Except.ok m => (Except.ok m, [m])
  | Except.error e => (Except.error e, [])

/-- A serverContent wire object: camel-cased optional fields as received. -/
structure ServerContentWire where
  modelTurn : Option PyVal
  turnComplete : Option Bool
  interrupted : Option Bool

/-- A toolCall wire object. -/
structure ToolCallWire where
  functionCalls : Option PyVal

/-- A parsed server wire frame: at most one top-level payload key. -/
structure ServerFrame where
  serverContent : Option ServerContentWire
  toolCall : Option ToolCallWire
  toolCallCancellation : Option PyVal

/-- The canonical server-content record after decoding. -/
structure LiveServerContent where
  model_turn : Option PyVal
  turn_complete : Option Bool
  interrupted : Option Bool

/-- The canonical tool-call record after decoding. -/
structure LiveToolCall where
  function_calls : Option PyVal

/-- The canonical server message after decoding. -/
structure LiveServerMessage where
  server_content : Option LiveServerContent
  tool_call : Option LiveToolCall
  tool_call_cancellation : Option PyVal

/-- Modelled from the spec: _Content_from_mldev of models.py is outside the
sources; spec section 4.2 says decoding is purely structural field renaming,
modelled as the identity on the carried wire content. -/
def Content_from_mldev (v : PyVal) : PyVal := v

/-- Modelled from the spec: _Content_from_vertex, as Content_from_mldev. -/
def Content_from_vertex (v : PyVal) : PyVal := v

/-- _LiveServerContent_from_mldev (lines 243-261): each present camel-cased
field is renamed; absent fields stay absent, never defaulted. -/
def LiveServerContent_from_mldev (sc : ServerContentWire) : LiveServerContent :=
  { model_turn := sc.modelTurn.map Content_from_mldev
    turn_complete := sc.turnComplete
    interrupted := sc.interrupted }

/-- _LiveServerContent_from_vertex (lines 316-334). -/
def LiveServerContent_from_vertex (sc : ServerContentWire) : LiveServerContent :=
  { model_turn := sc.modelTurn.map Content_from_vertex
    turn_complete := sc.turnComplete
    interrupted := sc.interrupted }

/-- _LiveToolCall_from_mldev (lines 263-274). -/
def LiveToolCall_from_mldev (tc : ToolCallWire) : LiveToolCall :=
  { function_calls := tc.functionCalls }

/-- _LiveToolCall_from_vertex (lines 276-287). -/
def LiveToolCall_from_vertex (tc : ToolCallWire) : LiveToolCall :=
  { function_calls := tc.functionCalls }

/-- _LiveServerMessage_from_mldev (lines 289-314). -/
def LiveServerMessage_from_mldev (f : ServerFrame) : LiveServerMessage :=
  { server_content := f.serverContent.map LiveServerContent_from_mldev
    tool_call := f.toolCall.map LiveToolCall_from_mldev
    tool_call_cancellation := f.toolCallCancellation }

/-- _LiveServerMessage_from_vertex (lines 336-362). -/
def LiveServerMessage_from_vertex (f : ServerFrame) : LiveServerMessage :=
  { server_content := f.serverContent.map LiveServerContent_from_vertex
    tool_call := f.toolCall.map LiveToolCall_from_vertex
    tool_call_cancellation := f.toolCallCancellation }

/-- The dialect switch of _receive (lines 218-221). -/
def LiveServerMessage_from (vertexai : Bool) (f : ServerFrame) : LiveServerMessage :=
  if vertexai then LiveServerMessage_from_vertex f else LiveServerMessage_from_mldev f

/-- The loop condition of lines 141-144: the message carries a server_content
(a model instance is always truthy) whose turn_complete is truthy. -/
def isTurnComplete (m : LiveServerMessage) : Bool :=
  match m.server_content with
  | some sc => sc.turn_complete.getD false
  | Option.none => false

/-- AsyncSession.receive (lines 115-144) on a stream of parsed frames: each
frame is decoded and yielded; the first turn-complete message is yielded and
ends the sequence. -/
def receiveYields (vertexai : Bool) : List ServerFrame → List LiveServerMessage
  | [] => []
  | f :: rest =>
    let m := LiveServerMessage_from vertexai f
    if isTurnComplete m then [m] else m :: receiveYields vertexai rest

/-- One observation of the receive task inside start_stream: a decoded
message, a ConnectionClosed condition, or any other receive failure. -/
inductive RecvOutcome where
  | gotMsg (m : LiveServerMessage)
  | connClosed
  | recvFailure

/-- AsyncSession.start_stream receive side (lines 180-206): messages are
yielded in order; a ConnectionClosed observed during a receive breaks the
loop and the generator finishes normally with the messages yielded so far;
any other receive failure escapes to the caller. -/
def start_stream_run : List RecvOutcome → Except PyExc (List LiveServerMessage)
  | [] => Except.ok []
  | RecvOutcome.gotMsg m :: rest => (start_stream_run rest).map (fun l => m :: l)
  | RecvOutcome.connClosed :: _ => Except.ok []
  | RecvOutcome.recvFailure :: _ => Except.error PyExc.valueErrUnsupported

/-- The connect configuration consumed by the setup builders; nested payloads
are carried as wire values. -/
structure LiveConnectConfig where
  generation_config : Option PyVal
  response_modalities : Option (List String)
  speech_config : Option PyVal
  system_instruction : Option PyVal
  tools : Option (List PyVal)

/-- The generationConfig object of the setup frame: the fields coming from
the converted generation config, plus the responseModalities and speechConfig
keys the builders merge into the same object. -/
structure GenConfigWire where
  base : Option PyVal
  responseModalities : Option (List String)
  speechConfig : Option PyVal

/-- The setup handshake payload: model id plus the optional nested objects. -/
structure SetupWire where
  model : String
  generationConfig : Option GenConfigWire
  systemInstruction : Option PyVal
  tools : Option (List PyVal)

/-- Modelled from the spec: _GenerateContentConfig_to_mldev of models.py is
outside the sources; spec section 4.2 describes a structural field-mapping
table, modelled as the identity on the carried payload. -/
def GenerateContentConfig_to_mldev (v : PyVal) : PyVal := v

/-- Modelled from the spec: _GenerateContentConfig_to_vertex, as above. -/
def GenerateContentConfig_to_vertex (v : PyVal) : PyVal := v

/-- Modelled from the spec: _SpeechConfig_to_mldev composed with
t_speech_config, structural. -/
def SpeechConfig_to_mldev (v : PyVal) : PyVal := v

/-- Modelled from the spec: _SpeechConfig_to_vertex composed with
t_speech_config, structural. -/
def SpeechConfig_to_vertex (v : PyVal) : PyVal := v

/-- Modelled from the spec: _Content_to_mldev composed with t_content for the
system instruction, structural. -/
def SystemInstruction_to_mldev (v : PyVal) : PyVal := v

/-- Modelled from the spec: _Content_to_vertex composed with t_content. -/
def SystemInstruction_to_vertex (v : PyVal) : PyVal := v

/-- Modelled from the spec: _Tool_to_mldev composed with t_tool, structural. -/
def Tool_to_mldev (v : PyVal) : PyVal := v

/-- Modelled from the spec: _Tool_to_vertex composed with t_tool. -/
def Tool_to_vertex (v : PyVal) : PyVal := v

/-- AsyncLive._LiveSetup_to_mldev (lines 675-745): response modalities and
speech config are merged into an existing generationConfig object rather than
overwriting it; no default response modality is installed. -/
def LiveSetup_to_mldev (model : String) (config : Option LiveConnectConfig) : SetupWire :=
  let gc0 : Option GenConfigWire :=
    match config.bind (fun c => c.generation_config) with
    | some g => some ⟨some (GenerateContentConfig_to_mldev g), Option.none, Option.none⟩
    | Option.none => Option.none
  let gc1 : Option GenConfigWire :=
    match config.bind (fun c => c.response_modalities) with
    | some ms =>
      match gc0 with
      | some gc => some { gc with responseModalities := some ms }
      | Option.none => some ⟨Option.none, some ms, Option.none⟩
    | Option.none => gc0
  let gc2 : Option GenConfigWire :=
    match config.bind (fun c => c.speech_config) with
    | some sp =>
      match gc1 with
      | some gc => some { gc with speechConfig := some (SpeechConfig_to_mldev sp) }
      | Option.none => some ⟨Option.none, Option.none, some (SpeechConfig_to_mldev sp)⟩
    | Option.none => gc1
  { model := model
    generationConfig := gc2
    systemInstruction := (config.bind (fun c => c.system_instruction)).map SystemInstruction_to_mldev
    tools := (config.bind (fun c => c.tools)).map (fun ts => ts.map Tool_to_mldev) }

/-- AsyncLive._LiveSetup_to_vertex (lines 747-825): as the mldev builder, but
when the caller specifies no response modality the builder installs the AUDIO
default, merging it into any existing generationConfig object. -/
def LiveSetup_to_vertex (model : String) (config : Option LiveConnectConfig) : SetupWire :=
  let gc0 : Option GenConfigWire :=
    match config.bind (fun c => c.generation_config) with
    | some g => some ⟨some (GenerateContentConfig_to_vertex g), Option.none, Option.none⟩
    | Option.none => Option.none
  let gc1 : Option GenConfigWire :=
    match config.bind (fun c => c.response_modalities) with
    | some ms =>
      match gc0 with
      | some gc => some { gc with responseModalities := some ms }
      | Option.none => some ⟨Option.none, some ms, Option.none⟩
    | Option.none =>
      match gc0 with
      | some gc => some { gc with responseModalities := some ["AUDIO"] }
      | Option.none => some ⟨Option.none, some ["AUDIO"], Option.none⟩
  let gc2 : Option GenConfigWire :=
    match config.bind (fun c => c.speech_config) with
    | some sp =>
      match gc1 with
      | some gc => some { gc with speechConfig := some (SpeechConfig_to_vertex sp) }
      | Option.none => some ⟨Option.none, Option.none, some (SpeechConfig_to_vertex sp)⟩
    | Option.none => gc1
  { model := model
    generationConfig := gc2
    systemInstruction := (config.bind (fun c => c.system_instruction)).map SystemInstruction_to_vertex
    tools := (config.bind (fun c => c.tools)).map (fun ts => ts.map Tool_to_vertex) }

/-- Skipping a non-dict element in the function-response loop leaves the
result unchanged. -/
theorem processFRItems_cons_skip (vertexai : Bool) (a : PyVal) (rest : List PyVal)
    (ha : isDictVal a = false) :
    processFRItems vertexai (a :: rest) = processFRItems vertexai rest := by
  cases a <;> first | rfl | simp [isDictVal] at ha

/-- The dict test holds exactly on dict values. -/
theorem isDictVal_eq_true_iff (a : PyVal) :
    isDictVal a = true ↔ ∃ kvs, a = PyVal.pyDict kvs := by
  cases a <;> simp [isDictVal]

/-- A successful run of the function-response loop yields one typed dict per
dict element of the input list. -/
theorem processFRItems_ok_length (vertexai : Bool) :
    ∀ (xs l : List PyVal), processFRItems vertexai xs = Except.ok l →
      l.length = xs.countP isDictVal := by
  intro xs
  induction xs with
  | nil =>
    intro l h
    simp only [processFRItems] at h
    cases h
    rfl
  | cons a rest ih =>
    intro l h
    by_cases hd : isDictVal a = true
    · obtain ⟨kvs, rfl⟩ := (isDictVal_eq_true_iff a).mp hd
      simp only [processFRItems] at h
      cases hmk : mkFunctionResponse kvs with
      | none => simp only [hmk] at h; cases h
      | some f =>
        simp only [hmk] at h
        by_cases hc : (f.ident.isNone && !vertexai) = true
        · rw [if_pos hc] at h; cases h
        · rw [if_neg hc] at h
          cases hrest : processFRItems vertexai rest with
          | error e => rw [hrest] at h; cases h
          | ok l2 =>
            rw [hrest] at h
            cases h
            simp [List.countP_cons, isDictVal, ih l2 hrest]
    · have ha : isDictVal a = false := by simpa using hd
      rw [processFRItems_cons_skip vertexai a rest ha] at h
      rw [List.countP_cons]
      simp [ha, ih l h]

/-- On dialect A the function-response loop aborts with an error whenever some
dict element validates to a FunctionResponse with no id. -/
theorem processFRItems_err_of_missing_id :
    ∀ (xs : List PyVal) (kvs : List (String × PyVal)) (f : FRFields),
      PyVal.pyDict kvs ∈ xs → mkFunctionResponse kvs = some f → f.ident = Option.none →
      ∃ e, processFRItems false xs = Except.error e := by
  intro xs
  induction xs with
  | nil => intro kvs f hmem; cases hmem
  | cons a rest ih =>
    intro kvs f hmem hmk hid
    rcases List.mem_cons.mp hmem with heq | hmem'
    · subst heq
      refine ⟨PyExc.valueErrRequiresId, ?_⟩
      simp [processFRItems, hmk, hid]
    · cases ha : isDictVal a with
      | false =>
        rw [processFRItems_cons_skip false a rest ha]
        exact ih kvs f hmem' hmk hid
      | true =>
        obtain ⟨kvs2, rfl⟩ := (isDictVal_eq_true_iff a).mp ha
        cases hmk2 : mkFunctionResponse kvs2 with
        | none => exact ⟨PyExc.valueErrUnsupported, by simp [processFRItems, hmk2]⟩
        | some f2 =>
          by_cases hc : (f2.ident.isNone && !false) = true
          · refine ⟨PyExc.valueErrRequiresId, ?_⟩
            simp only [processFRItems, hmk2]
            rw [if_pos hc]
          · obtain ⟨e, he⟩ := ih kvs f hmem' hmk hid
            refine ⟨e, ?_⟩
            simp only [processFRItems, hmk2, if_neg hc, he, Except.map]

/-- A nonempty list input with a tool-response-shaped element always enters
the tool-response branch of lines 409-446. -/
theorem parse_list_toolish (vertexai : Bool) (xs : List PyVal) (eot : Option Bool)
    (hne : xs ≠ []) (ht : xs.any isToolResponseShaped = true) :
    parse_client_message vertexai (ClientInput.pyIn (PyVal.pyList xs)) eot =
      (processFRItems vertexai xs).map
        (fun l => LiveClientMessageDict.toolResponse (PyVal.pyList l)) := by
  have hfal : isFalsyInput (ClientInput.pyIn (PyVal.pyList xs)) = false := by
    cases xs with
    | nil => exact absurd rfl hne
    | cons a l => rfl
  simp [parse_client_message, hfal, preprocessInput, dispatchFormatted, seqElems, ht]

/-- Draining non-turn-complete frames yields all of them, in order, before
whatever the remaining frames produce. -/
theorem receiveYields_append_nontc (vertexai : Bool) :
    ∀ (pre rest : List ServerFrame),
      (∀ p ∈ pre, isTurnComplete (LiveServerMessage_from vertexai p) = false) →
      receiveYields vertexai (pre ++ rest) =
        pre.map (LiveServerMessage_from vertexai) ++ receiveYields vertexai rest := by
  intro pre
  induction pre with
  | nil => intro rest _; rfl
  | cons a l ih =>
    intro rest h
    have ha := h a (List.mem_cons_self a l)
    have hrest := ih rest (fun p hp => h p (List.mem_cons_of_mem a hp))
    simp [receiveYields, ha, hrest]

/-- C1 counterexample: the claim says a tool-response construction whose
FunctionResponse lacks an id always fails on dialect A, also when the
FunctionResponse is part of a canonical ToolResponse; but the canonical
ToolResponse check of lines 609-614 inspects only the first element, so a
ToolResponse whose second FunctionResponse lacks an id parses successfully
on dialect A. -/
theorem C1_counterexample :
    parse_client_message false
      (ClientInput.toolRespIn (some
        [⟨some "f", some (PyVal.pyDict []), some "call-1"⟩,
         ⟨some "g", some (PyVal.pyDict []), Option.none⟩])) (some false)
      = Except.ok (LiveClientMessageDict.toolResponse (PyVal.pyList
          [PyVal.pyDict [("name", PyVal.pyStr "f"), ("response", PyVal.pyDict []),
             ("id", PyVal.pyStr "call-1")],
           PyVal.pyDict [("name", PyVal.pyStr "g"), ("response", PyVal.pyDict [])]])) := rfl

/-- C1 (amended): a FunctionResponse lacking an id, given as a single record
(a dict with name and response, or a FunctionResponse instance), always fails
on dialect A with the id-requirement error and no frame is written, while the
identical construction on dialect B succeeds and yields a ToolResponse
message; for a canonical ToolResponse the dialect-A check inspects only the
first FunctionResponse, so it fails whenever the first element lacks an id,
and dialect B always succeeds. -/
theorem C1_amended_id_requirement (nm : String) (resp : List (String × PyVal))
    (rv : Option PyVal) (rest : List FRFields) (eot : Option Bool) :
    (parse_client_message false
        (ClientInput.pyIn (PyVal.pyDict [("name", PyVal.pyStr nm), ("response", PyVal.pyDict resp)]))
        eot = Except.error PyExc.valueErrRequiresId ∧
     (sendFrames false
        (ClientInput.pyIn (PyVal.pyDict [("name", PyVal.pyStr nm), ("response", PyVal.pyDict resp)]))
        eot).2 = [] ∧
     parse_client_message true
        (ClientInput.pyIn (PyVal.pyDict [("name", PyVal.pyStr nm), ("response", PyVal.pyDict resp)]))
        eot = Except.ok (LiveClientMessageDict.toolResponse (PyVal.pyList
          [frTypedDict (some nm) (some (PyVal.pyDict resp)) Option.none]))) ∧
    (parse_client_message false (ClientInput.pyIn (PyVal.pyFR (some nm) rv Option.none)) eot
        = Except.error PyExc.valueErrRequiresId ∧
     (sendFrames false (ClientInput.pyIn (PyVal.pyFR (some nm) rv Option.none)) eot).2 = [] ∧
     parse_client_message true (ClientInput.pyIn (PyVal.pyFR (some nm) rv Option.none)) eot
        = Except.ok (LiveClientMessageDict.toolResponse (PyVal.pyList
          [frTypedDict (some nm) rv Option.none]))) ∧
    (parse_client_message false
        (ClientInput.toolRespIn (some (FRFields.mk (some nm) rv Option.none :: rest))) eot
        = Except.error PyExc.valueErrRequiresId ∧
     (sendFrames false
        (ClientInput.toolRespIn (some (FRFields.mk (some nm) rv Option.none :: rest))) eot).2 = [] ∧
     parse_client_message true
        (ClientInput.toolRespIn (some (FRFields.mk (some nm) rv Option.none :: rest))) eot
        = Except.ok (LiveClientMessageDict.toolResponse
          (PyVal.pyList ((FRFields.mk (some nm) rv Option.none :: rest).map dumpFRFields)))) :=
  ⟨⟨rfl, rfl, rfl⟩, ⟨rfl, rfl, rfl⟩, rfl, rfl, rfl⟩

/-- C2 counterexample: the claim says a list with a tool-response-shaped
element yields one FunctionResponse per matching element; but the loop of
lines 415-441 converts every dict element, so a list whose second dict does
not match the shape (it carries only an id) still contributes a second
FunctionResponse: one matching element, two FunctionResponses. -/
theorem C2_counterexample :
    ([PyVal.pyDict [("name", PyVal.pyStr "f"), ("response", PyVal.pyDict []),
        ("id", PyVal.pyStr "call-1")],
      PyVal.pyDict [("id", PyVal.pyStr "call-2")]].countP isToolResponseShaped = 1) ∧
    parse_client_message false
      (ClientInput.pyIn (PyVal.pyList
        [PyVal.pyDict [("name", PyVal.pyStr "f"), ("response", PyVal.pyDict []),
           ("id", PyVal.pyStr "call-1")],
         PyVal.pyDict [("id", PyVal.pyStr "call-2")]])) Option.none
      = Except.ok (LiveClientMessageDict.toolResponse (PyVal.pyList
          [PyVal.pyDict [("name", PyVal.pyStr "f"), ("response", PyVal.pyDict []),
             ("id", PyVal.pyStr "call-1")],
           PyVal.pyDict [("name", PyVal.pyNone), ("response", PyVal.pyNone),
             ("id", PyVal.pyStr "call-2")]])) := ⟨rfl, rfl⟩

/-- C2 (amended): a list input with a tool-response-shaped element is handled
by the tool-response branch: on success the result is a ToolResponse with one
FunctionResponse per dict element (matching the shape or not; non-dict
elements are skipped); on dialect A every dict element must independently
carry an id: if any dict element validates to a FunctionResponse without one,
normalization fails for the whole batch and no partial ToolResponse is
produced. -/
theorem C2_amended_batch (vertexai : Bool) (xs : List PyVal) (eot : Option Bool)
    (ht : xs.any isToolResponseShaped = true) :
    (∀ m, parse_client_message vertexai (ClientInput.pyIn (PyVal.pyList xs)) eot = Except.ok m →
       ∃ l, m = LiveClientMessageDict.toolResponse (PyVal.pyList l) ∧
         l.length = xs.countP isDictVal) ∧
    (∀ kvs f, PyVal.pyDict kvs ∈ xs → mkFunctionResponse kvs = some f →
       f.ident = Option.none →
       ∃ e, parse_client_message false (ClientInput.pyIn (PyVal.pyList xs)) eot
         = Except.error e) := by
  obtain ⟨x, hx, hxt⟩ := List.any_eq_true.mp ht
  have hne : xs ≠ [] := List.ne_nil_of_mem hx
  constructor
  · intro m hm
    rw [parse_list_toolish vertexai xs eot hne ht] at hm
    cases hp : processFRItems vertexai xs with
    | error e => rw [hp] at hm; cases hm
    | ok l =>
      rw [hp] at hm
      cases hm
      exact ⟨l, rfl, processFRItems_ok_length vertexai xs l hp⟩
  · intro kvs f hmem hmk hid
    obtain ⟨e, he⟩ := processFRItems_err_of_missing_id xs kvs f hmem hmk hid
    refine ⟨e, ?_⟩
    rw [parse_list_toolish false xs eot hne ht, he]
    rfl

/-- C2 witness: a concrete two-dict batch on dialect A in which the second
dict validates without an id, instantiating both conclusions. -/
theorem C2_amended_batch_witness :
    ([PyVal.pyDict [("name", PyVal.pyStr "f"), ("response", PyVal.pyDict []),
        ("id", PyVal.pyStr "call-1")],
      PyVal.pyDict [("name", PyVal.pyStr "g")]].any isToolResponseShaped = true) ∧
    ((∀ m, parse_client_message false
        (ClientInput.pyIn (PyVal.pyList
          [PyVal.pyDict [("name", PyVal.pyStr "f"), ("response", PyVal.pyDict []),
             ("id", PyVal.pyStr "call-1")],
           PyVal.pyDict [("name", PyVal.pyStr "g")]])) Option.none = Except.ok m →
       ∃ l, m = LiveClientMessageDict.toolResponse (PyVal.pyList l) ∧
         l.length = [PyVal.pyDict [("name", PyVal.pyStr "f"), ("response", PyVal.pyDict []),
             ("id", PyVal.pyStr "call-1")],
           PyVal.pyDict [("name", PyVal.pyStr "g")]].countP isDictVal) ∧
    (∀ kvs f, PyVal.pyDict kvs ∈
         [PyVal.pyDict [("name", PyVal.pyStr "f"), ("response", PyVal.pyDict []),
             ("id", PyVal.pyStr "call-1")],
           PyVal.pyDict [("name", PyVal.pyStr "g")]] → mkFunctionResponse kvs = some f →
       f.ident = Option.none →
       ∃ e, parse_client_message false
         (ClientInput.pyIn (PyVal.pyList
           [PyVal.pyDict [("name", PyVal.pyStr "f"), ("response", PyVal.pyDict []),
              ("id", PyVal.pyStr "call-1")],
            PyVal.pyDict [("name", PyVal.pyStr "g")]])) Option.none = Except.error e)) :=
  ⟨rfl, C2_amended_batch false
    [PyVal.pyDict [("name", PyVal.pyStr "f"), ("response", PyVal.pyDict []),
       ("id", PyVal.pyStr "call-1")],
     PyVal.pyDict [("name", PyVal.pyStr "g")]] Option.none rfl⟩

/-- C3: on both dialects, decoding a server frame whose serverContent carries
turnComplete = true yields a canonical message whose turn_complete flag is
true, and one receive() invocation yields every earlier message and stops
exactly at the first such message. -/
theorem C3_turn_complete_round_trip (vertexai : Bool) (pre : List ServerFrame)
    (f : ServerFrame) (rest : List ServerFrame) (sc : ServerContentWire)
    (hsc : f.serverContent = some sc) (htc : sc.turnComplete = some true)
    (hpre : ∀ p ∈ pre, isTurnComplete (LiveServerMessage_from vertexai p) = false) :
    ((LiveServerMessage_from vertexai f).server_content.map
        (fun c => c.turn_complete) = some (some true)) ∧
    receiveYields vertexai (pre ++ f :: rest) =
      pre.map (LiveServerMessage_from vertexai) ++ [LiveServerMessage_from vertexai f] := by
  have hdec : (LiveServerMessage_from vertexai f).server_content.map
      (fun c => c.turn_complete) = some (some true) := by
    cases vertexai <;>
      simp [LiveServerMessage_from, LiveServerMessage_from_mldev, LiveServerMessage_from_vertex,
        LiveServerContent_from_mldev, LiveServerContent_from_vertex, hsc, htc]
  have htcb : isTurnComplete (LiveServerMessage_from vertexai f) = true := by
    cases vertexai <;>
      simp [isTurnComplete, LiveServerMessage_from, LiveServerMessage_from_mldev,
        LiveServerMessage_from_vertex, LiveServerContent_from_mldev,
        LiveServerContent_from_vertex, hsc, htc]
  refine ⟨hdec, ?_⟩
  rw [receiveYields_append_nontc vertexai pre (f :: rest) hpre]
  simp [receiveYields, htcb]

/-- C3 witness: a one-frame preamble without turn completion followed by a
turn-complete frame and a trailing frame that is not yielded. -/
theorem C3_turn_complete_round_trip_witness :
    ((⟨some ⟨Option.none, some true, Option.none⟩, Option.none, Option.none⟩ :
        ServerFrame).serverContent = some ⟨Option.none, some true, Option.none⟩) ∧
    ((⟨Option.none, some true, Option.none⟩ : ServerContentWire).turnComplete = some true) ∧
    (∀ p ∈ [(⟨Option.none, Option.none, Option.none⟩ : ServerFrame)],
      isTurnComplete (LiveServerMessage_from false p) = false) ∧
    (((LiveServerMessage_from false
        ⟨some ⟨Option.none, some true, Option.none⟩, Option.none, Option.none⟩).server_content.map
          (fun c => c.turn_complete) = some (some true)) ∧
     receiveYields false
        ([⟨Option.none, Option.none, Option.none⟩] ++
          (⟨some ⟨Option.none, some true, Option.none⟩, Option.none, Option.none⟩ : ServerFrame) ::
            [⟨Option.none, Option.none, Option.none⟩]) =
        [(⟨Option.none, Option.none, Option.none⟩ : ServerFrame)].map
            (LiveServerMessage_from false) ++
          [LiveServerMessage_from false
            ⟨some ⟨Option.none, some true, Option.none⟩, Option.none, Option.none⟩]) :=
  ⟨rfl, rfl, fun p hp => by rw [List.mem_singleton.mp hp]; rfl,
   C3_turn_complete_round_trip false [⟨Option.none, Option.none, Option.none⟩]
     ⟨some ⟨Option.none, some true, Option.none⟩, Option.none, Option.none⟩
     [⟨Option.none, Option.none, Option.none⟩] ⟨Option.none, some true, Option.none⟩
     rfl rfl (fun p hp => by rw [List.mem_singleton.mp hp]; rfl)⟩

/-- C4: already-canonical inputs with empty lists violate the no-other-failure
contract: a canonical ToolResponse with an empty function_responses list on
dialect A, and a canonical RealtimeInput with an empty media_chunks list on
either dialect, make _parse_client_message index an empty list, so an
IndexError escapes instead of a validation error naming the shape. -/
theorem C4_index_error_escapes :
    parse_client_message false (ClientInput.toolRespIn (some [])) Option.none
      = Except.error PyExc.indexErr ∧
    parse_client_message false (ClientInput.realtimeIn (some [])) Option.none
      = Except.error PyExc.indexErr := ⟨rfl, rfl⟩

/-- C5: the normalizer resolves mixed-shape lists by tool-response precedence:
for a list containing both a tool-response-shaped dict and a plain string,
any successful normalization yields a ToolResponse, never a ContentUpdate or
a RealtimeChunk. -/
theorem C5_tool_response_precedence (vertexai : Bool) (xs : List PyVal) (eot : Option Bool)
    (hd : ∃ d ∈ xs, isToolResponseShaped d = true) (hs : ∃ s, PyVal.pyStr s ∈ xs) :
    ∀ m, parse_client_message vertexai (ClientInput.pyIn (PyVal.pyList xs)) eot = Except.ok m →
      ∃ frs, m = LiveClientMessageDict.toolResponse frs := by
  obtain ⟨d, hdx, hdt⟩ := hd
  have ht : xs.any isToolResponseShaped = true := List.any_eq_true.mpr ⟨d, hdx, hdt⟩
  have hne : xs ≠ [] := List.ne_nil_of_mem hdx
  intro m hm
  rw [parse_list_toolish vertexai xs eot hne ht] at hm
  cases hp : processFRItems vertexai xs with
  | error e => rw [hp] at hm; cases hm
  | ok l =>
    rw [hp] at hm
    cases hm
    exact ⟨PyVal.pyList l, rfl⟩

/-- C5 witness: a list mixing a complete tool-response dict and the string
"hi" on dialect A, instantiating the precedence conclusion. -/
theorem C5_tool_response_precedence_witness :
    (∃ d ∈ [PyVal.pyDict [("name", PyVal.pyStr "f"), ("response", PyVal.pyDict []),
        ("id", PyVal.pyStr "x")], PyVal.pyStr "hi"], isToolResponseShaped d = true) ∧
    (∃ s, PyVal.pyStr s ∈ [PyVal.pyDict [("name", PyVal.pyStr "f"), ("response", PyVal.pyDict []),
        ("id", PyVal.pyStr "x")], PyVal.pyStr "hi"]) ∧
    (∀ m, parse_client_message false
        (ClientInput.pyIn (PyVal.pyList
          [PyVal.pyDict [("name", PyVal.pyStr "f"), ("response", PyVal.pyDict []),
             ("id", PyVal.pyStr "x")], PyVal.pyStr "hi"])) Option.none = Except.ok m →
      ∃ frs, m = LiveClientMessageDict.toolResponse frs) :=
  ⟨⟨PyVal.pyDict [("name", PyVal.pyStr "f"), ("response", PyVal.pyDict []),
      ("id", PyVal.pyStr "x")], List.mem_cons_self _ _, rfl⟩,
   ⟨"hi", List.mem_cons_of_mem _ (List.mem_cons_self _ _)⟩,
   C5_tool_response_precedence false
     [PyVal.pyDict [("name", PyVal.pyStr "f"), ("response", PyVal.pyDict []),
        ("id", PyVal.pyStr "x")], PyVal.pyStr "hi"] Option.none
     ⟨PyVal.pyDict [("name", PyVal.pyStr "f"), ("response", PyVal.pyDict []),
        ("id", PyVal.pyStr "x")], List.mem_cons_self _ _, rfl⟩
     ⟨"hi", List.mem_cons_of_mem _ (List.mem_cons_self _ _)⟩⟩

/-- C6: when the caller supplies no response modality, the dialect-B setup
payload carries generationConfig.responseModalities = [AUDIO], merged into
the generationConfig converted from any caller generation config rather than
overwriting it, while the dialect-A payload carries no responseModalities
field at all. -/
theorem C6_default_response_modalities (model : String) (cfg : LiveConnectConfig)
    (h : cfg.response_modalities = Option.none) :
    ((LiveSetup_to_vertex model (some cfg)).generationConfig.map
        (fun gc => gc.responseModalities) = some (some ["AUDIO"])) ∧
    ((LiveSetup_to_vertex model (some cfg)).generationConfig.bind (fun gc => gc.base)
        = cfg.generation_config.map GenerateContentConfig_to_vertex) ∧
    (∀ gc, (LiveSetup_to_mldev model (some cfg)).generationConfig = some gc →
        gc.responseModalities = Option.none) := by
  obtain ⟨g, rm, sp, si, tl⟩ := cfg
  simp only at h
  subst h
  cases g <;> cases sp <;>
    exact ⟨rfl, rfl, fun gc hgc => by cases hgc <;> rfl⟩

/-- C6 witness: a connect configuration with a generation config and no
response modality, instantiating both dialect conclusions. -/
theorem C6_default_response_modalities_witness :
    ((⟨some (PyVal.pyDict [("temperature", PyVal.pyInt 1)]), Option.none, Option.none,
        Option.none, Option.none⟩ : LiveConnectConfig).response_modalities = Option.none) ∧
    (((LiveSetup_to_vertex "models/g" (some
        ⟨some (PyVal.pyDict [("temperature", PyVal.pyInt 1)]), Option.none, Option.none,
          Option.none, Option.none⟩)).generationConfig.map
        (fun gc => gc.responseModalities) = some (some ["AUDIO"])) ∧
     ((LiveSetup_to_vertex "models/g" (some
        ⟨some (PyVal.pyDict [("temperature", PyVal.pyInt 1)]), Option.none, Option.none,
          Option.none, Option.none⟩)).generationConfig.bind (fun gc => gc.base)
        = (some (PyVal.pyDict [("temperature", PyVal.pyInt 1)])).map
            GenerateContentConfig_to_vertex) ∧
     (∀ gc, (LiveSetup_to_mldev "models/g" (some
        ⟨some (PyVal.pyDict [("temperature", PyVal.pyInt 1)]), Option.none, Option.none,
          Option.none, Option.none⟩)).generationConfig = some gc →
        gc.responseModalities = Option.none)) :=
  ⟨rfl, by
    have h := C6_default_response_modalities "models/g"
      ⟨some (PyVal.pyDict [("temperature", PyVal.pyInt 1)]), Option.none, Option.none,
        Option.none, Option.none⟩ rfl
    exact h⟩

/-- C7: a ConnectionClosed observed during a receive inside start_stream ends
the coordinator's output normally: the messages yielded so far are returned
and no error escapes, whatever receive outcomes would have followed. -/
theorem C7_connection_closed_clean (pre : List LiveServerMessage) (rest : List RecvOutcome) :
    start_stream_run (pre.map RecvOutcome.gotMsg ++ RecvOutcome.connClosed :: rest)
      = Except.ok pre := by
  induction pre with
  | nil => rfl
  | cons m l ih => simp [start_stream_run, ih, Except.map]

/-- C8: normalizing absent input or the empty list produces a ContentUpdate
with no turns and turn_complete = true, on both dialects and for any
end_of_turn argument. -/
theorem C8_empty_end_of_turn (vertexai : Bool) (eot : Option Bool) :
    parse_client_message vertexai (ClientInput.pyIn PyVal.pyNone) eot
      = Except.ok (LiveClientMessageDict.clientContent Option.none
          (some (PyVal.pyBool true))) ∧
    parse_client_message vertexai (ClientInput.pyIn (PyVal.pyList [])) eot
      = Except.ok (LiveClientMessageDict.clientContent Option.none
          (some (PyVal.pyBool true))) := ⟨rfl, rfl⟩

/-- C9: normalizing the string Hello world! with end_of_turn = true produces
a ContentUpdate with exactly one user turn containing one text part carrying
that string, and turn_complete = true, on both dialects. -/
theorem C9_hello_world (vertexai : Bool) :
    parse_client_message vertexai (ClientInput.pyIn (PyVal.pyStr "Hello world!")) (some true)
      = Except.ok (LiveClientMessageDict.clientContent
          (some (PyVal.pyList [PyVal.pyDict
            [("parts", PyVal.pyList [PyVal.pyDict [("text", PyVal.pyStr "Hello world!")]]),
             ("role", PyVal.pyStr "user")]]))
          (some (PyVal.pyBool true))) := by
  cases vertexai <;> rfl

/-- C10: every server message read during one receive() invocation is yielded
in the order read: a run of messages whose server_content does not carry
turn_complete = true is yielded in full before whatever the remaining frames
produce. -/
theorem C10_intermediates_in_order (vertexai : Bool) (pre rest : List ServerFrame)
    (hpre : ∀ p ∈ pre, isTurnComplete (LiveServerMessage_from vertexai p) = false) :
    receiveYields vertexai (pre ++ rest) =
      pre.map (LiveServerMessage_from vertexai) ++ receiveYields vertexai rest :=
  receiveYields_append_nontc vertexai pre rest hpre

/-- C10 witness: two intermediate frames (no server content, and server
content without turn completion) followed by a turn-complete frame. -/
theorem C10_intermediates_in_order_witness :
    (∀ p ∈ [(⟨Option.none, Option.none, Option.none⟩ : ServerFrame),
        ⟨some ⟨Option.none, Option.none, some true⟩, Option.none, Option.none⟩],
      isTurnComplete (LiveServerMessage_from true p) = false) ∧
    receiveYields true
        ([(⟨Option.none, Option.none, Option.none⟩ : ServerFrame),
          ⟨some ⟨Option.none, Option.none, some true⟩, Option.none, Option.none⟩] ++
         [⟨some ⟨Option.none, some true, Option.none⟩, Option.none, Option.none⟩]) =
      [(⟨Option.none, Option.none, Option.none⟩ : ServerFrame),
        ⟨some ⟨Option.none, Option.none, some true⟩, Option.none, Option.none⟩].map
          (LiveServerMessage_from true) ++
        receiveYields true [⟨some ⟨Option.none, some true, Option.none⟩, Option.none, Option.none⟩] :=
  ⟨fun p hp => by
    rcases List.mem_cons.mp hp with h1 | h2
    · rw [h1]; rfl
    · rw [List.mem_singleton.mp h2]; rfl,
   C10_intermediates_in_order true
     [⟨Option.none, Option.none, Option.none⟩,
      ⟨some ⟨Option.none, Option.none, some true⟩, Option.none, Option.none⟩]
     [⟨some ⟨Option.none, some true, Option.none⟩, Option.none, Option.none⟩]
     (fun p hp => by
       rcases List.mem_cons.mp hp with h1 | h2
       · rw [h1]; rfl
       · rw [List.mem_singleton.mp h2]; rfl)⟩
